import Mathlib

/-!
Verification of the live-session control layer of the
gemini-live-api-web-console repository.

The files under src/ contain the React hook `useLiveAPI`
(src/hooks/use-live-api.ts), the context accessor `useLiveAPIContext`,
the `ControlTray` component and the `Altair` component.  The library
classes `GenAILiveClient` and `AudioStreamer` are referenced by that
code but their sources are not part of the repository snapshot; where a
claim depends on their behaviour they are modelled from the
specification (each such definition says so in its doc comment).
-/

/-- Configuration object passed to `connect` (the `LiveConnectConfig`
of the source).  Its internals are irrelevant to the claims, so it is
kept as an opaque record with decidable equality. -/
structure LiveConnectConfig where
  payload : String := ""
deriving DecidableEq, Repr

/-- Session events emitted by the client, one constructor per event
kind wired up in use-live-api.ts (bytes of an audio event are a list of
byte values). -/
inductive SessionEvent where
  | openEv : SessionEvent
  | closeEv : SessionEvent
  | errorEv : String → SessionEvent
  | interruptedEv : SessionEvent
  | audioEv : List Nat → SessionEvent
deriving DecidableEq, Repr

/-- Connection states of the live session client.
Modelled from the spec: states are Idle, Connecting, Open, Closed, with
Error reachable and terminal for the attempt. -/
inductive ClientState where
  | idle : ClientState
  | connecting : ClientState
  | sessionOpen : ClientState
  | closed : ClientState
  | errored : ClientState
deriving DecidableEq, Repr

/-- Whether a state counts as an active connection (connecting or open). -/
def ClientState.isActive : ClientState → Bool
  | .connecting => true
  | .sessionOpen => true
  | _ => false

/-- One realtime-input part as passed to `sendRealtimeInput`: a mime
type and base64 data (src/types, used by ControlTray.tsx). -/
structure RealtimePart where
  mimeType : String
  data : String
deriving DecidableEq, Repr

/-- Modelled from the spec: the `GenAILiveClient` class
(src/lib/genai-live-client.ts is absent from the snapshot).  The state
records the connection state machine, the transport handshakes issued
so far (each carrying model and config), the number of transport closes
issued, the realtime-input frames actually transmitted, and the emitted
events. -/
structure GenAILiveClient where
  state : ClientState
  handshakes : List (String × LiveConnectConfig)
  closes : Nat
  sentFrames : List (List RealtimePart)
  events : List SessionEvent
deriving DecidableEq, Repr

/-- A freshly constructed client: idle, nothing sent. -/
def GenAILiveClient.fresh : GenAILiveClient :=
  { state := .idle, handshakes := [], closes := 0, sentFrames := [], events := [] }

/-- Modelled from the spec: `disconnect()` is idempotent; if not
connected it is a no-op, otherwise it closes the transport, transitions
to Closed and emits Close.  It must not throw, hence a total function. -/
def GenAILiveClient.disconnect (c : GenAILiveClient) : GenAILiveClient :=
  if c.state.isActive then
    { c with state := .closed, closes := c.closes + 1, events := c.events ++ [.closeEv] }
  else
    c

/-- Modelled from the spec: `connect(model, config)` constructs the
transport handshake payload, opens the transport and transitions to
Connecting; it rejects if a connection is already Open or Connecting. -/
def GenAILiveClient.connect (c : GenAILiveClient) (model : String)
    (cfg : LiveConnectConfig) : Except String GenAILiveClient :=
  if c.state.isActive then
    .error "already connected"
  else
    .ok { c with state := .connecting, handshakes := c.handshakes ++ [(model, cfg)] }

/-- Modelled from the spec: on transport-level open acknowledgment the
client transitions Connecting to Open and emits the Open event. -/
def GenAILiveClient.openAck (c : GenAILiveClient) : GenAILiveClient :=
  if c.state = .connecting then
    { c with state := .sessionOpen, events := c.events ++ [.openEv] }
  else
    c

/-- Modelled from the spec: `sendRealtimeInput(parts)` frames and
transmits the parts only while Open; if called while not Open the call
is dropped with no queueing. -/
def GenAILiveClient.sendRealtimeInput (c : GenAILiveClient)
    (parts : List RealtimePart) : GenAILiveClient :=
  if c.state = .sessionOpen then
    { c with sentFrames := c.sentFrames ++ [parts] }
  else
    c

/-- Number of active (connecting or open) sessions of a client: zero or
one, read off the state machine. -/
def GenAILiveClient.activeSessions (c : GenAILiveClient) : Nat :=
  if c.state.isActive then 1 else 0

/-- Transport handshakes still outstanding: handshakes issued minus
closes issued. -/
def GenAILiveClient.outstanding (c : GenAILiveClient) : Nat :=
  c.handshakes.length - c.closes

/-- Reachability invariant of the client model: every handshake that is
not accounted for by a close corresponds to the currently active
session. -/
def GenAILiveClient.wf (c : GenAILiveClient) : Prop :=
  c.handshakes.length = c.closes + c.activeSessions

/-- Number of Open events in an event list. -/
def countOpenEvents : List SessionEvent → Nat
  | [] => 0
  | .openEv :: es => countOpenEvents es + 1
  | _ :: es => countOpenEvents es

/-- State of the `useLiveAPI` hook (src/hooks/use-live-api.ts): the
memoized client, the model and config React state, and the connected
flag.  The config is an Option so that the guard in `connect` is
representable; the hook initializes it to an empty object. -/
structure HookState where
  client : GenAILiveClient
  model : String
  config : Option LiveConnectConfig
  connected : Bool
deriving DecidableEq, Repr

/-- Initial hook state: fresh client, default model, config initialized
to an empty object, not connected (use-live-api.ts lines 47 to 56). -/
def initHookState : HookState :=
  { client := GenAILiveClient.fresh
    model := "models/gemini-2.0-flash-exp"
    config := some {}
    connected := false }

/-- The hook setConfig: React setState on the config field only
(use-live-api.ts line 54). -/
def useLiveAPI_setConfig (h : HookState) (c : LiveConnectConfig) : HookState :=
  { h with config := some c }

/-- The hook connect (use-live-api.ts lines 124 to 132): throws if the
config has not been set, otherwise first calls client.disconnect and
then client.connect with the current model and config.  The result
pairs the new hook state with success or the thrown error. -/
def useLiveAPI_connect (h : HookState) : HookState × Except String Unit :=
  match h.config with
  | none => (h, .error "config has not been set")
  | some cfg =>
    match (h.client.disconnect).connect h.model cfg with
    | .error e => ({ h with client := h.client.disconnect }, .error e)
    | .ok c2 => ({ h with client := c2 }, .ok ())

/-- The hook disconnect (use-live-api.ts lines 135 to 138): calls
client.disconnect and sets connected to false; it performs no fallible
operation, so the result is always ok. -/
def useLiveAPI_disconnect (h : HookState) : HookState × Except String Unit :=
  ({ h with client := h.client.disconnect, connected := false }, .ok ())

/-- The hook result record as seen by consumers of the context
(data fields of UseLiveAPIResults in use-live-api.ts). -/
structure UseLiveAPIResults where
  config : LiveConnectConfig
  model : String
  connected : Bool
  volume : ℚ
deriving DecidableEq, Repr

/-- The context accessor (src/contexts/LiveAPIContext.tsx lines 75 to
81): reads the React context; throws when no provider supplied a value,
otherwise returns the provided value unchanged. -/
def useLiveAPIContext (ctx : Option UseLiveAPIResults) :
    Except String UseLiveAPIResults :=
  match ctx with
  | none => .error "useLiveAPIContext must be used within a LiveAPIProvider"
  | some v => .ok v

/-- The volume indicator value in pixels computed by ControlTray
(ControlTray.tsx line 81): max(5, min(inVolume * 200, 8)). -/
def volumeIndicatorPx (inVolume : ℚ) : ℚ :=
  max 5 (min (inVolume * 200) 8)

/-- A write to a document-wide CSS custom property, as performed by the
volume effect in ControlTray.tsx lines 78 to 83. -/
structure StyleWrite where
  target : String
  property : String
  valuePx : ℚ
deriving DecidableEq, Repr

/-- The effect ControlTray runs on every change of the microphone input
volume (ControlTray.tsx lines 78 to 83): sets the custom property
--volume on document.documentElement.style. -/
def controlTray_volumeEffect (inVolume : ℚ) : StyleWrite :=
  { target := "document.documentElement.style"
    property := "--volume"
    valuePx := volumeIndicatorPx inVolume }

/-- The audio data callback of ControlTray (ControlTray.tsx lines 91 to
98): wraps a base64 microphone chunk into a single realtime part with
the fixed pcm mime type. -/
def controlTray_onData (base64 : String) : List RealtimePart :=
  [{ mimeType := "audio/pcm;rate=16000", data := base64 }]

/-- The video frame sender of ControlTray (ControlTray.tsx lines 141 to
151), parameterized over the base64 payload extracted from the canvas
JPEG data URL: a single realtime part with the jpeg mime type. -/
def controlTray_sendVideoFrame (jpegBase64 : String) : List RealtimePart :=
  [{ mimeType := "image/jpeg", data := jpegBase64 }]

/-- The part lists the application ever passes to sendRealtimeInput:
ControlTray.tsx contains the only two call sites, the microphone data
callback and the video frame sender. -/
inductive AppRealtimeSend : List RealtimePart → Prop
  | audio (b64 : String) : AppRealtimeSend (controlTray_onData b64)
  | video (b64 : String) : AppRealtimeSend (controlTray_sendVideoFrame b64)

/-- Modelled from the spec: the AudioStreamer
(src/lib/audio-streamer.ts is absent from the snapshot).  It buffers
scheduled-but-not-yet-rendered PCM chunks; stop cancels all of them
(flushes buffered playback) and addPCM16 appends the exact bytes it is
given to the playback queue. -/
structure AudioStreamer where
  queued : List (List Nat)
deriving DecidableEq, Repr

/-- Modelled from the spec: stop immediately cancels all not yet
rendered scheduled entries. -/
def AudioStreamer.stop (_s : AudioStreamer) : AudioStreamer :=
  { queued := [] }

/-- Modelled from the spec: addPCM16 enqueues the given chunk for
gapless playback after everything already queued. -/
def AudioStreamer.addPCM16 (s : AudioStreamer) (bytes : List Nat) : AudioStreamer :=
  { queued := s.queued ++ [bytes] }

/-- The part of the hook state the registered event handlers touch
(use-live-api.ts lines 80 to 121): the audio streamer ref (null until
the audio context resolves) and the connected flag. -/
structure HookMediaState where
  streamerRef : Option AudioStreamer
  connected : Bool
deriving DecidableEq, Repr

/-- Event kinds for which the hook registers handlers on the client
(use-live-api.ts lines 104 to 109); registration runs in the effect of
every mounted useLiveAPI hook. -/
def hookRegisteredEventKinds : List String :=
  ["error", "open", "close", "interrupted", "audio"]

/-- Combined dispatch of the handlers registered by the hook
(use-live-api.ts lines 80 to 109): open sets connected, close clears
it, error only logs, interrupted calls stop on the streamer ref if
present, audio forwards the exact received bytes to addPCM16. -/
def hookOnEvent (st : HookMediaState) : SessionEvent → HookMediaState
  | .openEv => { st with connected := true }
  | .closeEv => { st with connected := false }
  | .errorEv _ => st
  | .interruptedEv => { st with streamerRef := st.streamerRef.map AudioStreamer.stop }
  | .audioEv bytes =>
      { st with streamerRef := st.streamerRef.map (fun s => s.addPCM16 bytes) }

/-- One function call inside a tool call delivered to Altair
(Altair.tsx): id, name and the args payload. -/
structure AltairFunctionCall where
  id : String
  name : String
  args : String
deriving DecidableEq, Repr

/-- The tool call event payload (LiveServerToolCall): the functionCalls
field is optional in the wire type. -/
structure LiveServerToolCall where
  functionCalls : Option (List AltairFunctionCall)
deriving DecidableEq, Repr

/-- One entry of the tool-response frame sent back by Altair: the id
and name of the answered call plus the fixed success output object. -/
structure AltairFunctionResponse where
  id : String
  name : String
  outputSuccess : Bool
deriving DecidableEq, Repr

/-- The frame passed to sendToolResponse (Altair.tsx lines 125 to 131). -/
structure ToolResponseFrame where
  functionResponses : List AltairFunctionResponse
deriving DecidableEq, Repr

/-- The response entry Altair builds for one function call
(Altair.tsx lines 126 to 130). -/
def altairResponseFor (fc : AltairFunctionCall) : AltairFunctionResponse :=
  { id := fc.id, name := fc.name, outputSuccess := true }

/-- The tool call handler of Altair (Altair.tsx lines 104 to 135):
returns the new jsonString state together with the scheduled send, if
any, as a pair of the delay in milliseconds and the response frame. -/
def altair_onToolCall (jsonString : String) (tc : LiveServerToolCall) :
    String × Option (Nat × ToolResponseFrame) :=
  match tc.functionCalls with
  | none => (jsonString, none)
  | some fcs =>
    let js :=
      match fcs.find? (fun fc => fc.name = "render_altair") with
      | some fc => fc.args
      | none => jsonString
    if fcs.length ≠ 0 then
      (js, some (200, { functionResponses := fcs.map altairResponseFor }))
    else
      (js, none)

/-- Concrete hook media state used by the C2 witness. -/
def hookMediaState₀ : HookMediaState :=
  { streamerRef := some { queued := [[1, 2, 3]] }, connected := true }

/-- Concrete closed client used by the C3 witness. -/
def closedClient₀ : GenAILiveClient :=
  { state := .closed, handshakes := [("m", {})], closes := 1
    sentFrames := [], events := [.closeEv] }

/-- Concrete hook state with no config, used by the C6 witness. -/
def hookStateNoConfig₀ : HookState :=
  { client := GenAILiveClient.fresh
    model := "models/gemini-2.0-flash-exp"
    config := none
    connected := false }

/-- Concrete function call used by the C4 witness. -/
def altairCall₀ : AltairFunctionCall :=
  { id := "call-1", name := "render_altair", args := "graph-json" }

/-- The hook state after calling the hook connect twice in succession
without an intervening disconnect. -/
def hookConnectTwice (h : HookState) : HookState :=
  (useLiveAPI_connect (useLiveAPI_connect h).1).1

/-- C9: useLiveAPIContext throws outside a provider (context value
undefined) and returns the provided value unchanged inside one. -/
theorem useLiveAPIContext_spec :
    useLiveAPIContext none =
      .error "useLiveAPIContext must be used within a LiveAPIProvider" ∧
    ∀ v : UseLiveAPIResults, useLiveAPIContext (some v) = .ok v := by
  refine ⟨rfl, fun v => rfl⟩

/-- C10: for every microphone volume value the indicator written by
ControlTray equals max(5, min(v * 200, 8)), always lies in [5, 8], and
is written to the document-wide custom property --volume rather than
component state. -/
theorem controlTray_volume_bounds :
    ∀ v : ℚ,
      (controlTray_volumeEffect v).valuePx = max 5 (min (v * 200) 8) ∧
      5 ≤ (controlTray_volumeEffect v).valuePx ∧
      (controlTray_volumeEffect v).valuePx ≤ 8 ∧
      (controlTray_volumeEffect v).property = "--volume" ∧
      (controlTray_volumeEffect v).target = "document.documentElement.style" := by
  intro v
  refine ⟨rfl, ?_, ?_, rfl, rfl⟩
  · exact le_max_left 5 (min (v * 200) 8)
  · exact max_le (by norm_num) (min_le_right (v * 200) 8)

/-- C8: every realtime-input part the application sends carries either
the pcm audio mime type (microphone chunks) or the jpeg mime type
(video snapshots); no other mime type reaches sendRealtimeInput. -/
theorem app_realtime_mimeTypes (ps : List RealtimePart)
    (hs : AppRealtimeSend ps) :
    ∀ p ∈ ps, p.mimeType = "audio/pcm;rate=16000" ∨ p.mimeType = "image/jpeg" := by
  cases hs with
  | audio b64 =>
    intro p hp
    simp only [controlTray_onData, List.mem_singleton] at hp
    subst hp
    exact Or.inl rfl
  | video b64 =>
    intro p hp
    simp only [controlTray_sendVideoFrame, List.mem_singleton] at hp
    subst hp
    exact Or.inr rfl

/-- Witness for C8 at a concrete microphone chunk. -/
theorem app_realtime_mimeTypes_witness :
    ({ mimeType := "audio/pcm;rate=16000", data := "QUJD" } : RealtimePart).mimeType =
      "audio/pcm;rate=16000" ∨
    ({ mimeType := "audio/pcm;rate=16000", data := "QUJD" } : RealtimePart).mimeType =
      "image/jpeg" :=
  app_realtime_mimeTypes (controlTray_onData "QUJD") (AppRealtimeSend.audio "QUJD")
    { mimeType := "audio/pcm;rate=16000", data := "QUJD" }
    (by simp [controlTray_onData])

/-- Disconnect never changes the handshake list. -/
theorem disconnect_handshakes (c : GenAILiveClient) :
    (c.disconnect).handshakes = c.handshakes := by
  unfold GenAILiveClient.disconnect
  split <;> rfl

/-- Disconnect adds one close exactly when a session was active. -/
theorem disconnect_closes (c : GenAILiveClient) :
    (c.disconnect).closes = c.closes + c.activeSessions := by
  unfold GenAILiveClient.disconnect GenAILiveClient.activeSessions
  split <;> simp_all

/-- After a disconnect no session is active. -/
theorem disconnect_not_active (c : GenAILiveClient) :
    (c.disconnect).state.isActive = false := by
  unfold GenAILiveClient.disconnect
  split <;> simp_all [ClientState.isActive]

/-- Disconnect of a client with no active session is a no-op. -/
theorem disconnect_of_inactive (c : GenAILiveClient)
    (h : c.state.isActive = false) : c.disconnect = c := by
  unfold GenAILiveClient.disconnect
  simp [h]

/-- Disconnect is idempotent on the client model. -/
theorem disconnect_idem (c : GenAILiveClient) :
    (c.disconnect).disconnect = c.disconnect :=
  disconnect_of_inactive _ (disconnect_not_active c)

/-- Open-event count is additive over list append. -/
theorem countOpenEvents_append (l₁ l₂ : List SessionEvent) :
    countOpenEvents (l₁ ++ l₂) = countOpenEvents l₁ + countOpenEvents l₂ := by
  induction l₁ with
  | nil => simp [countOpenEvents]
  | cons e es ih =>
    cases e
    case openEv => simp [countOpenEvents, ih]; omega
    all_goals simp [countOpenEvents, ih]

/-- Disconnect emits no Open event. -/
theorem disconnect_openEvents (c : GenAILiveClient) :
    countOpenEvents (c.disconnect).events = countOpenEvents c.events := by
  unfold GenAILiveClient.disconnect
  split
  · simp [countOpenEvents_append, countOpenEvents]
  · rfl

/-- Connecting right after a disconnect always succeeds and appends one
handshake. -/
theorem connect_after_disconnect (c : GenAILiveClient) (model : String)
    (cfg : LiveConnectConfig) :
    (c.disconnect).connect model cfg =
      .ok { c.disconnect with
              state := .connecting,
              handshakes := c.handshakes ++ [(model, cfg)] } := by
  simp [GenAILiveClient.connect, disconnect_not_active, disconnect_handshakes]

/-- Reduction of the hook connect when the config is present. -/
theorem useLiveAPI_connect_some (h : HookState) (cfg : LiveConnectConfig)
    (hc : h.config = some cfg) :
    useLiveAPI_connect h =
      ({ h with
           client := { h.client.disconnect with
                         state := .connecting,
                         handshakes := h.client.handshakes ++ [(h.model, cfg)] } },
       .ok ()) := by
  unfold useLiveAPI_connect
  rw [hc]
  simp only [connect_after_disconnect]

/-- C3: sendRealtimeInput called while the session is not Open drops
the call: the client is unchanged, so no frame is transmitted and
nothing is queued for later transmission. -/
theorem sendRealtimeInput_dropped (c : GenAILiveClient)
    (parts : List RealtimePart) (hne : c.state ≠ .sessionOpen) :
    c.sendRealtimeInput parts = c ∧
    (c.sendRealtimeInput parts).sentFrames = c.sentFrames := by
  constructor
  · simp [GenAILiveClient.sendRealtimeInput, hne]
  · simp [GenAILiveClient.sendRealtimeInput, hne]

/-- Witness for C3 at a concrete closed client. -/
theorem sendRealtimeInput_dropped_witness :
    closedClient₀.state ≠ .sessionOpen ∧
    closedClient₀.sendRealtimeInput
      [{ mimeType := "audio/pcm;rate=16000", data := "QUJD" }] = closedClient₀ :=
  ⟨by decide,
   (sendRealtimeInput_dropped closedClient₀
     [{ mimeType := "audio/pcm;rate=16000", data := "QUJD" }] (by decide)).1⟩

/-- C2: with the audio streamer initialized, the interrupted handler
calls stop (flushing all buffered playback) and the audio handler
forwards the exact received bytes to addPCM16; both handlers are among
the event kinds registered by every mounted useLiveAPI hook. -/
theorem hook_event_wiring (st : HookMediaState) (s : AudioStreamer)
    (hs : st.streamerRef = some s) :
    hookOnEvent st .interruptedEv = { st with streamerRef := some s.stop } ∧
    s.stop.queued = [] ∧
    (∀ bytes : List Nat,
      hookOnEvent st (.audioEv bytes) =
        { st with streamerRef := some (s.addPCM16 bytes) } ∧
      (s.addPCM16 bytes).queued = s.queued ++ [bytes]) ∧
    "interrupted" ∈ hookRegisteredEventKinds ∧
    "audio" ∈ hookRegisteredEventKinds := by
  refine ⟨?_, rfl, ?_, ?_, ?_⟩
  · simp [hookOnEvent, hs]
  · intro bytes
    exact ⟨by simp [hookOnEvent, hs], rfl⟩
  · simp [hookRegisteredEventKinds]
  · simp [hookRegisteredEventKinds]

/-- Witness for C2 at a concrete state with a non-empty playback queue. -/
theorem hook_event_wiring_witness :
    hookMediaState₀.streamerRef = some { queued := [[1, 2, 3]] } ∧
    hookOnEvent hookMediaState₀ .interruptedEv =
      { hookMediaState₀ with
        streamerRef := some (AudioStreamer.stop { queued := [[1, 2, 3]] }) } :=
  ⟨rfl, (hook_event_wiring hookMediaState₀ { queued := [[1, 2, 3]] } rfl).1⟩

/-- C4: a tool call with a non-empty functionCalls list triggers
exactly one tool-response frame, scheduled after a 200 ms delay, whose
entries are in one-to-one correspondence with the received function
calls, each carrying that call id and name together with the success
output object. -/
theorem altair_toolResponse (js : String) (fcs : List AltairFunctionCall)
    (hne : fcs ≠ []) :
    ∃ F : ToolResponseFrame,
      (altair_onToolCall js { functionCalls := some fcs }).2 = some (200, F) ∧
      F.functionResponses.length = fcs.length ∧
      List.Forall₂ (fun fc r =>
          AltairFunctionResponse.id r = fc.id ∧
          AltairFunctionResponse.name r = fc.name ∧
          AltairFunctionResponse.outputSuccess r = true)
        fcs F.functionResponses := by
  have hlen : fcs.length ≠ 0 := by
    simpa [List.length_eq_zero] using hne
  refine ⟨{ functionResponses := fcs.map altairResponseFor }, ?_, by simp, ?_⟩
  · simp [altair_onToolCall, hlen]
  · rw [List.forall₂_map_right_iff]
    exact List.forall₂_same.mpr (fun fc _ => ⟨rfl, rfl, rfl⟩)

/-- Witness for C4 at a single concrete render call. -/
theorem altair_toolResponse_witness :
    [altairCall₀] ≠ ([] : List AltairFunctionCall) ∧
    ∃ F : ToolResponseFrame,
      (altair_onToolCall "" { functionCalls := some [altairCall₀] }).2 =
        some (200, F) ∧
      F.functionResponses.length = [altairCall₀].length ∧
      List.Forall₂ (fun fc r =>
          AltairFunctionResponse.id r = fc.id ∧
          AltairFunctionResponse.name r = fc.name ∧
          AltairFunctionResponse.outputSuccess r = true)
        [altairCall₀] F.functionResponses :=
  ⟨by simp, altair_toolResponse "" [altairCall₀] (by simp)⟩

/-- C5: the hook disconnect never throws, always leaves the connected
flag false, and a second call is a no-op beyond the first. -/
theorem useLiveAPI_disconnect_idempotent (h : HookState) :
    (useLiveAPI_disconnect h).2 = .ok () ∧
    (useLiveAPI_disconnect h).1.connected = false ∧
    useLiveAPI_disconnect (useLiveAPI_disconnect h).1 =
      ((useLiveAPI_disconnect h).1, .ok ()) := by
  refine ⟨rfl, rfl, ?_⟩
  simp [useLiveAPI_disconnect, disconnect_idem]

/-- C6: the hook connect rejects with the config error exactly when the
config is absent; in that case it returns before any transport
activity, and the hook initializes the config to an empty object. -/
theorem useLiveAPI_connect_config_guard (h : HookState) :
    ((useLiveAPI_connect h).2 = .error "config has not been set" ↔
      h.config = none) ∧
    ((useLiveAPI_connect h).2 = .ok () ↔ h.config.isSome) ∧
    (h.config = none → (useLiveAPI_connect h).1 = h) ∧
    initHookState.config = some {} := by
  refine ⟨?_, ?_, ?_, rfl⟩
  · cases hc : h.config with
    | none => simp [useLiveAPI_connect, hc]
    | some cfg => rw [useLiveAPI_connect_some h cfg hc]; simp [hc]
  · cases hc : h.config with
    | none => simp [useLiveAPI_connect, hc]
    | some cfg => rw [useLiveAPI_connect_some h cfg hc]; simp [hc]
  · intro hc
    simp [useLiveAPI_connect, hc]

/-- Witness for C6 at the concrete config-free hook state. -/
theorem useLiveAPI_connect_config_guard_witness :
    (useLiveAPI_connect hookStateNoConfig₀).2 =
      .error "config has not been set" ∧
    (useLiveAPI_connect hookStateNoConfig₀).1 = hookStateNoConfig₀ :=
  ⟨((useLiveAPI_connect_config_guard hookStateNoConfig₀).1).mpr rfl,
   (useLiveAPI_connect_config_guard hookStateNoConfig₀).2.2.1 rfl⟩

/-- C7: setConfig only updates the stored config - the client, its
transport log and the connected flag are untouched - and the stored
config reaches the client only through the handshake of a subsequent
connect call. -/
theorem setConfig_no_session_effect (h : HookState) (c : LiveConnectConfig) :
    (useLiveAPI_setConfig h c).client = h.client ∧
    (useLiveAPI_setConfig h c).connected = h.connected ∧
    (useLiveAPI_setConfig h c).config = some c ∧
    (useLiveAPI_connect (useLiveAPI_setConfig h c)).1.client.handshakes =
      h.client.handshakes ++ [(h.model, c)] := by
  refine ⟨rfl, rfl, rfl, ?_⟩
  rw [useLiveAPI_connect_some (useLiveAPI_setConfig h c) c rfl]
  simp [useLiveAPI_setConfig]

/-- C1: the hook connect first disconnects the client and only then
connects with the current model and config, so two connects in
succession without an intervening disconnect leave exactly one active
session, exactly one transport handshake outstanding, and exactly one
new Open event once the transport acknowledges. -/
theorem connect_twice_single_session (h : HookState) (cfg : LiveConnectConfig)
    (hcfg : h.config = some cfg) (hwf : h.client.wf) :
    (h.client.disconnect).connect h.model cfg =
      .ok (useLiveAPI_connect h).1.client ∧
    (useLiveAPI_connect h).2 = .ok () ∧
    (useLiveAPI_connect (useLiveAPI_connect h).1).2 = .ok () ∧
    ((hookConnectTwice h).client.openAck).activeSessions = 1 ∧
    ((hookConnectTwice h).client.openAck).outstanding = 1 ∧
    countOpenEvents ((hookConnectTwice h).client.openAck).events =
      countOpenEvents h.client.events + 1 := by
  obtain ⟨⟨s, H, K, F, E⟩, m, cf, cn⟩ := h
  have hcf : cf = some cfg := hcfg
  subst hcf
  refine ⟨?_, ?_, ?_, ?_, ?_, ?_⟩ <;>
    cases s <;>
      simp [useLiveAPI_connect, hookConnectTwice, GenAILiveClient.disconnect,
        GenAILiveClient.connect, GenAILiveClient.openAck,
        GenAILiveClient.activeSessions, GenAILiveClient.outstanding,
        GenAILiveClient.wf, ClientState.isActive, countOpenEvents_append,
        countOpenEvents, List.length_append] at hwf ⊢ <;>
      omega

/-- Witness for C1 from the initial hook state. -/
theorem connect_twice_single_session_witness :
    ((hookConnectTwice initHookState).client.openAck).activeSessions = 1 ∧
    ((hookConnectTwice initHookState).client.openAck).outstanding = 1 :=
  ⟨(connect_twice_single_session initHookState {} rfl rfl).2.2.2.1,
   (connect_twice_single_session initHookState {} rfl rfl).2.2.2.2.1⟩
